import Mathlib

/-!
Shallow embedding of the CallSanta video render job pipeline:
the worker loop's job-store operations (claimNextJob, handleFailure),
the render pipeline (renderVideo) with its outro compositor
(concatenateWithOutro), duration estimation, synthetic waveform
generation, and the post-completion notification step.

Sources: the video worker entry (claimNextJob, handleFailure, the loop),
the render module (renderVideo, generateWaveform, concatenateWithOutro),
the email module (sendPostCallEmail) and the shared worker types
(RETRY_CONFIG, WORKER_CONFIG).

Modelling conventions:
* The relational store (Supabase) is a pure value: a list of call rows
  plus an append-only list of events.  A supabase-js `update().eq(...)`
  call maps the matching rows; with no `.select()` attached it reports
  an error only on infrastructure failure, never for matching zero
  rows, so the affected-row count is not part of the client result —
  exactly as in the source.
* External effects (signed-url creation, download, bundling,
  composition selection, the render engine, ffmpeg, upload, the email
  provider) are oracles supplied in a `RenderEnv`; an `Except` value
  records whether the corresponding `await` resolved or threw.
* The local filesystem is an association list from an inductive path
  type to abstract content tokens (`Nat`).
* JS falsiness of a nullable string column (`!row.col`) is `isFalsy`:
  true on SQL null and on the empty string.
* `Math.round (n / d)` for natural `n` and positive `d` is
  `mathRoundDiv n d = (2*n + d) / (2*d)` (floor of `n/d + 1/2`,
  ties away from zero, matching JS on nonnegative input).
* `Math.random ()` and `Math.sin (i * 0.1)` are oracles
  `rand sin01 : Nat → ℚ` indexed by the loop counter.
-/

namespace CallSanta

/-- RETRY_CONFIG.maxRetries from the worker's shared types. -/
def maxRetries : Nat := 3

/-- RETRY_CONFIG.backoffDelays in milliseconds: 30s, 2min, 10min. -/
def backoffDelays : List Nat := [30000, 120000, 600000]

/-- WORKER_CONFIG.fps. -/
def fps : Nat := 60

/-- WORKER_CONFIG.introDurationSeconds. -/
def introDurationSeconds : Nat := 2

/-- One row of the `calls` table, restricted to the columns the worker
reads or writes.  Nullable text columns are `Option String`; `created_at`
is an abstract monotone timestamp used only for ordering. -/
structure CallRow where
  id : Nat
  child_name : String
  recording_url : Option String
  parent_email : Option String
  transcript : Option String
  call_duration_seconds : Option Nat
  transcript_sent_at : Option String
  recording_purchased : Bool
  video_status : Option String
  video_retry_count : Nat
  video_url : Option String
  video_generated_at : Option String
  created_at : Nat
  deriving DecidableEq, Repr

/-- Payload of a `call_events` row as the worker writes it. -/
inductive EventData where
  | renderCompleted (video_url : String)
  | failedPermanently (error : String) (attempts : Nat)
  | retryScheduled (error : String) (attempt : Nat) (backoff_ms : Nat)
  | postCallEmailSent (with_video : Bool)
  deriving DecidableEq, Repr

/-- One row of the append-only `call_events` audit table. -/
structure EventRow where
  call_id : Nat
  event_type : String
  event_data : EventData
  deriving DecidableEq, Repr

/-- The job store: the `calls` table and the `call_events` table. -/
structure Db where
  calls : List CallRow
  events : List EventRow
  deriving DecidableEq, Repr

/-- JS falsiness of a nullable string column: null and `""` are falsy. -/
def isFalsy : Option String → Bool
  | none => true
  | some s => s == ""

/-- An `update(fields).eq('id', jobId)` call: map the field update over
every row whose id matches; no status guard, no affected-row check. -/
def updateById (db : Db) (jobId : Nat) (f : CallRow → CallRow) : Db :=
  { db with calls := db.calls.map fun r => if r.id == jobId then f r else r }

/-- An insert into `call_events` (append-only). -/
def appendEvent (db : Db) (e : EventRow) : Db :=
  { db with events := db.events ++ [e] }

/-- Eligibility filter of the claim query: `video_status = 'pending'`
and `recording_url` not null. -/
def eligible (r : CallRow) : Bool :=
  r.video_status == some "pending" && r.recording_url != none

/-- The claim query: oldest eligible row by `created_at` ascending,
limit 1 (first minimal element, matching a stable order-by). -/
def selectOldestPending (db : Db) : Option CallRow :=
  (db.calls.filter eligible).foldl
    (fun acc r =>
      match acc with
      | none => some r
      | some a => if r.created_at < a.created_at then some r else acc)
    none

/-- Number of rows the conditional claim update
`update({video_status:'processing'}).eq('id', jobId).eq('video_status','pending')`
would affect.  The source never requests this count; it is defined here
to state what the store reports at the SQL level. -/
def claimAffected (db : Db) (jobId : Nat) : Nat :=
  (db.calls.filter fun r =>
    r.id == jobId && r.video_status == some "pending").length

/-- Effect of the conditional claim update on the store: set
`video_status := 'processing'` on rows that match both the id and the
expected prior status `'pending'`. -/
def applyClaim (db : Db) (jobId : Nat) : Db :=
  { db with calls := db.calls.map fun r =>
      if r.id == jobId && r.video_status == some "pending"
      then { r with video_status := some "processing" } else r }

/-- claimNextJob from the worker entry.  `selectDb` is the store state
the select query runs against and `updateDb` the state at the moment of
the conditional update — they differ when a concurrent claimer wins the
race in between.  `selectErr`/`updateErr` model infrastructure errors
reported by the client (`error` non-null).  Faithful to the source: the
update result is only checked for `error`; a conditional update that
matches zero rows reports no error, and the selected job is returned. -/
def claimNextJob (selectDb updateDb : Db) (selectErr updateErr : Bool) :
    Db × Option CallRow :=
  if selectErr then (updateDb, none)
  else
    match selectOldestPending selectDb with
    | none => (updateDb, none)
    | some job =>
      if updateErr then (updateDb, none)
      else (applyClaim updateDb job.id, some job)

/-- Row update of handleFailure's permanent-failure branch:
`{video_status:'failed', video_retry_count: newRetryCount}`. -/
def permFailUpdate (newRetryCount : Nat) (r : CallRow) : CallRow :=
  { r with video_status := some "failed", video_retry_count := newRetryCount }

/-- Row update of handleFailure's retry branch:
`{video_status:'pending', video_retry_count: newRetryCount}`. -/
def retryUpdate (newRetryCount : Nat) (r : CallRow) : CallRow :=
  { r with video_status := some "pending", video_retry_count := newRetryCount }

/-- handleFailure from the worker entry: increment the retry count; at
`maxRetries` or beyond mark the job failed permanently and log a
`video_render_failed_permanently` event, otherwise set it back to
pending and log a `video_render_retry_scheduled` event carrying the
advisory backoff `backoffDelays[currentRetryCount] || 600000`. -/
def handleFailure (db : Db) (jobId : Nat) (error : String)
    (currentRetryCount : Nat) : Db :=
  let newRetryCount := currentRetryCount + 1
  if maxRetries ≤ newRetryCount then
    appendEvent (updateById db jobId (permFailUpdate newRetryCount))
      ⟨jobId, "video_render_failed_permanently",
        EventData.failedPermanently error newRetryCount⟩
  else
    let backoffDelay := (backoffDelays.get? currentRetryCount).getD 600000
    appendEvent (updateById db jobId (retryUpdate newRetryCount))
      ⟨jobId, "video_render_retry_scheduled",
        EventData.retryScheduled error newRetryCount backoffDelay⟩

/-- Math.round (n / d) for natural n and positive d: floor of
`n/d + 1/2`, i.e. ties round away from zero (up, on nonnegative
input), matching the JS semantics used by the render module. -/
def mathRoundDiv (n d : Nat) : Nat := (2 * n + d) / (2 * d)

/-- Step 4 of the render pipeline:
`Math.max(5, Math.round(buffer.length / 20000))`. -/
def durationSeconds (payloadBytes : Nat) : Nat :=
  max 5 (mathRoundDiv payloadBytes 20000)

/-- Clamp of a waveform sample into `[0.1, 1]`:
`Math.max(0.1, Math.min(1, x))`. -/
def clampAmp (x : ℚ) : ℚ := max (1/10) (min 1 x)

/-- generateWaveform from the render module: for each index `i` below
`length`, push `clamp (base + speech)` where `base = 0.3 + rand i * 0.4`
(`rand i` the i-th `Math.random()` draw) and
`speech = sin01 i * 0.2` (`sin01 i` the value of `Math.sin (i * 0.1)`).
The two transcendental/entropy sources are oracles `Nat → ℚ`. -/
def generateWaveform (rand sin01 : Nat → ℚ) (length : Nat) : List ℚ :=
  (List.range length).map fun i =>
    clampAmp (3/10 + rand i * (4/10) + sin01 i * (2/10))

/-- Local filesystem paths the worker touches, mirroring
`public/outro.mov`, `tmp/worker-audio-{id}.mp3`, `tmp/santa-main-{id}.mp4`
and `tmp/santa-video-{id}.mp4`. -/
inductive FPath where
  | outro
  | tempAudio (callId : Nat)
  | mainVideo (callId : Nat)
  | finalVideo (callId : Nat)
  deriving DecidableEq, Repr

/-- The local filesystem: association list from path to an abstract
content token. -/
abbrev Fs := List (FPath × Nat)

/-- fs.existsSync. -/
def fsExists (fs : Fs) (p : FPath) : Bool := fs.any fun e => e.1 == p

/-- Content lookup (fs.readFileSync, when the file exists). -/
def fsRead (fs : Fs) (p : FPath) : Option Nat :=
  (fs.find? fun e => e.1 == p).map fun e => e.2

/-- fs.writeFileSync: overwrite or create. -/
def fsWrite (fs : Fs) (p : FPath) (content : Nat) : Fs :=
  (p, content) :: fs.filter fun e => e.1 != p

/-- fs.copyFileSync (source present on every path reaching it here). -/
def copyFileSync (fs : Fs) (src dst : FPath) : Fs :=
  match fsRead fs src with
  | some v => fsWrite fs dst v
  | none => fs

/-- fs.unlinkSync, best effort. -/
def fsRemove (fs : Fs) (p : FPath) : Fs := fs.filter fun e => e.1 != p

/-- concatenateWithOutro from the render module: if the outro asset is
absent, copy the main video to the output; otherwise run the ffmpeg
concat (`ffmpegOk` = the command exited zero, producing
`concatContent`), and on a thrown/non-zero command copy the main video
to the output inside the catch.  Total — it never raises to the
caller. -/
def concatenateWithOutro (fs : Fs) (ffmpegOk : Bool) (concatContent : Nat)
    (mainVideoPath outputPath : FPath) : Fs :=
  if fsExists fs FPath.outro then
    if ffmpegOk then fsWrite fs outputPath concatContent
    else copyFileSync fs mainVideoPath outputPath
  else copyFileSync fs mainVideoPath outputPath

/-- sendPostCallEmail from the email module: skip silently when the
parent email is falsy; otherwise attempt the Resend send (`resendOk`)
with the error, if any, caught and logged — never rethrown.  The result
is whether a delivery attempt succeeded; the function is total, which
is the no-throw contract. -/
def sendPostCallEmail (call : CallRow) (resendOk : Bool) : Bool :=
  if isFalsy call.parent_email then false
  else resendOk

/-- Oracle environment for one renderVideo run: outcome of each awaited
external step, in pipeline order.  `Except.error e` means the await
threw with message `e`; `uploadError` is the supabase storage error
field (the source throws `"Upload failed: " ++ m` on `some m`). -/
structure RenderEnv where
  signedUrl : Except String String
  download : Except String Nat
  bundleRes : Except String Unit
  composeRes : Except String Unit
  renderRes : Except String Nat
  ffmpegOk : Bool
  concatContent : Nat
  uploadError : Option String
  publicUrl : String
  refetchOk : Bool
  resendOk : Bool
  nowIso : String
  rand : Nat → ℚ
  sin01 : Nat → ℚ
  fs0 : Fs

/-- RenderResult from the worker's shared types. -/
structure RenderResult where
  success : Bool
  videoUrl : Option String
  error : Option String
  deriving DecidableEq, Repr

/-- Observable side effects of one renderVideo run beyond the store and
filesystem: the content token handed to the storage upload, and whether
the Notifier (sendPostCallEmail) was invoked. -/
structure Effects where
  uploadedBytes : Option Nat
  emailInvoked : Bool
  deriving DecidableEq, Repr

/-- Everything a renderVideo run produces. -/
structure RunOut where
  db : Db
  fs : Fs
  result : RenderResult
  effects : Effects

/-- Row update of step 1: `{video_status:'processing'}`. -/
def procUpdate (r : CallRow) : CallRow :=
  { r with video_status := some "processing" }

/-- Row update of step 12: video URL, `completed` status, generation
timestamp. -/
def completeUpdate (publicUrl nowIso : String) (r : CallRow) : CallRow :=
  { r with video_url := some publicUrl,
           video_status := some "completed",
           video_generated_at := some nowIso }

/-- Row update of the step-14 flag write:
`{transcript_sent_at: now}`. -/
def notifiedUpdate (nowIso : String) (r : CallRow) : CallRow :=
  { r with transcript_sent_at := some nowIso }

/-- Step 1 of renderVideo: the unconditional
`update({video_status:'processing'}).eq('id', callId)`. -/
def setProcessing (db : Db) (jobId : Nat) : Db :=
  updateById db jobId procUpdate

/-- Step 12 of renderVideo: persist the video URL, `completed` status
and generation timestamp, keyed on the id. -/
def markCompletedRow (db : Db) (jobId : Nat) (publicUrl nowIso : String) : Db :=
  updateById db jobId (completeUpdate publicUrl nowIso)

/-- Flag update inside step 14:
`update({transcript_sent_at: now}).eq('id', callId)`. -/
def setNotifiedAt (db : Db) (jobId : Nat) (nowIso : String) : Db :=
  updateById db jobId (notifiedUpdate nowIso)

/-- Step 14 of renderVideo: re-fetch the call row fresh
(`select('*').eq('id', callId).single()` — `none` on infrastructure
error or missing row); if found and `transcript_sent_at` is falsy,
invoke the Notifier, then set the flag to the current ISO timestamp and
append a `post_call_email_sent` event.  Returns the store and whether
the Notifier was invoked. -/
def notifyStep (refetchOk resendOk : Bool) (nowIso : String) (jobId : Nat)
    (db : Db) : Db × Bool :=
  match (if refetchOk then db.calls.find? fun r => r.id == jobId else none) with
  | some fullCall =>
    if isFalsy fullCall.transcript_sent_at then
      let _delivered := sendPostCallEmail fullCall resendOk
      let db2 := appendEvent (setNotifiedAt db jobId nowIso)
        ⟨jobId, "post_call_email_sent", EventData.postCallEmailSent true⟩
      (db2, true)
    else (db, false)
  | none => (db, false)

/-- Uniform failure output of the job-boundary catch: the error message
of the first step that threw, with no upload and no notification. -/
def failOut (db : Db) (fs : Fs) (e : String) : RunOut :=
  ⟨db, fs, ⟨false, none, some e⟩, ⟨none, false⟩⟩

/-- renderVideo from the render module, one run over the oracle
environment `env` for the claimed `job` against store `db`.  Steps, in
source order: (1) unconditional status update to `processing`; (2)
signed URL; (3) download and temp-file write; (4) duration estimate;
(5) waveform; (6) bundle; (7) composition; (8) Remotion render of the
main video; (9) outro concatenation (never fails); (10) storage upload
of the final file's bytes; (11) public URL; (12) completed update;
(13) completion event; (14) notification step; (15) temp cleanup.  Any
step that throws short-circuits to the single job-boundary catch, which
returns `success := false` with the message. -/
def renderVideo (env : RenderEnv) (job : CallRow) (db : Db) : RunOut :=
  let db1 := setProcessing db job.id
  match env.signedUrl with
  | Except.error e => failOut db1 env.fs0 e
  | Except.ok _signedUrl =>
    match env.download with
    | Except.error e => failOut db1 env.fs0 e
    | Except.ok payloadBytes =>
      let fs1 := fsWrite env.fs0 (FPath.tempAudio job.id) payloadBytes
      let dur := durationSeconds payloadBytes
      let _totalDurationFrames := introDurationSeconds * fps + dur * fps
      let _waveformData := generateWaveform env.rand env.sin01 (dur * 100)
      match env.bundleRes with
      | Except.error e => failOut db1 fs1 e
      | Except.ok _ =>
        match env.composeRes with
        | Except.error e => failOut db1 fs1 e
        | Except.ok _ =>
          match env.renderRes with
          | Except.error e => failOut db1 fs1 e
          | Except.ok mainBytes =>
            let fs2 := fsWrite fs1 (FPath.mainVideo job.id) mainBytes
            let fs3 := concatenateWithOutro fs2 env.ffmpegOk env.concatContent
              (FPath.mainVideo job.id) (FPath.finalVideo job.id)
            let videoBuffer := (fsRead fs3 (FPath.finalVideo job.id)).getD 0
            match env.uploadError with
            | some m => failOut db1 fs3 ("Upload failed: " ++ m)
            | none =>
              let publicUrl := env.publicUrl
              let db2 := markCompletedRow db1 job.id publicUrl env.nowIso
              let db3 := appendEvent db2
                ⟨job.id, "video_render_completed", EventData.renderCompleted publicUrl⟩
              let ns := notifyStep env.refetchOk env.resendOk env.nowIso job.id db3
              let fs4 := fsRemove (fsRemove (fsRemove fs3 (FPath.tempAudio job.id))
                (FPath.mainVideo job.id)) (FPath.finalVideo job.id)
              ⟨ns.1, fs4, ⟨true, some publicUrl, none⟩, ⟨some videoBuffer, ns.2⟩⟩

/-- First pipeline-step error of a run environment, in step order, with
the upload error carrying the source's `Upload failed: ` prefix; `none`
when every step resolves. -/
def firstError (env : RenderEnv) : Option String :=
  match env.signedUrl with
  | Except.error e => some e
  | Except.ok _ =>
    match env.download with
    | Except.error e => some e
    | Except.ok _ =>
      match env.bundleRes with
      | Except.error e => some e
      | Except.ok _ =>
        match env.composeRes with
        | Except.error e => some e
        | Except.ok _ =>
          match env.renderRes with
          | Except.error e => some e
          | Except.ok _ =>
            match env.uploadError with
            | some m => some ("Upload failed: " ++ m)
            | none => none

/-- Sequential re-runs of the pipeline for the same job (external
re-triggers / retries of a completed job), threading the store;
returns the final store and the number of Notifier invocations. -/
def runSeq (job : CallRow) (db : Db) : List RenderEnv → Db × Nat
  | [] => (db, 0)
  | env :: rest =>
    let out := renderVideo env job db
    let rs := runSeq job out.db rest
    (rs.1, (if out.effects.emailInvoked then 1 else 0) + rs.2)

/-- The notified flag of the job's current record as the step-14 guard
reads it: the first row with the job's id, `true` when that row's
`transcript_sent_at` is truthy; `true` as well when no row exists
(no row means the guard can never fire). -/
def notifiedFlag (db : Db) (jobId : Nat) : Bool :=
  ((db.calls.find? fun r => r.id == jobId).map
    fun r => !(isFalsy r.transcript_sent_at)).getD true

/-- Store state just before step 14 on the success path: processing
update, completed update, completion event. -/
def dbBeforeNotify (env : RenderEnv) (job : CallRow) (db : Db) : Db :=
  appendEvent
    (markCompletedRow (setProcessing db job.id) job.id env.publicUrl env.nowIso)
    ⟨job.id, "video_render_completed", EventData.renderCompleted env.publicUrl⟩

/-- Agreement of two call rows on every column except `video_status`
and `video_retry_count`. -/
def agreesExceptStatusRetry (a b : CallRow) : Prop :=
  a.id = b.id ∧ a.child_name = b.child_name ∧
  a.recording_url = b.recording_url ∧ a.parent_email = b.parent_email ∧
  a.transcript = b.transcript ∧
  a.call_duration_seconds = b.call_duration_seconds ∧
  a.transcript_sent_at = b.transcript_sent_at ∧
  a.recording_purchased = b.recording_purchased ∧
  a.video_url = b.video_url ∧ a.video_generated_at = b.video_generated_at ∧
  a.created_at = b.created_at

/-! Concrete fixtures used by counterexample and witness theorems. -/

/-- A pending, eligible call row. -/
def rowP : CallRow :=
  ⟨1, "Ann", some "rec.mp3", some "mom@example.com", none, some 90, none,
    true, some "pending", 0, none, none, 10⟩

/-- Store holding `rowP`, as the claim query sees it. -/
def dbSel : Db := ⟨[rowP], []⟩

/-- The same store at the moment of the conditional claim update, after
a concurrent claimer already moved the row to `processing`. -/
def dbUpd : Db := ⟨[{ rowP with video_status := some "processing" }], []⟩

/-- Store whose single row already carries `video_retry_count = 3`
(a permanently failed job that an operator reset to pending and that
was claimed and failed again). -/
def dbR3 : Db :=
  ⟨[{ rowP with video_status := some "processing", video_retry_count := 3 }], []⟩

/-- Store whose single row already has the notified flag set. -/
def dbNotified : Db :=
  ⟨[{ rowP with transcript_sent_at := some "2024-12-01T00:00:00.000Z" }], []⟩

/-- Oracle environment in which every external step resolves. -/
def okEnv : RenderEnv :=
  ⟨Except.ok "signed", Except.ok 100000, Except.ok (), Except.ok (),
    Except.ok 7, true, 9, none, "https://cdn/video.mp4", true, true,
    "2024-12-02T00:00:00.000Z", (fun _ => 1/2), (fun _ => 0), []⟩

/-- Environment whose Remotion render step throws. -/
def renderFailEnv : RenderEnv := { okEnv with renderRes := Except.error "boom" }

/-- Environment with no outro asset on disk and a failing Resend send. -/
def noResendEnv : RenderEnv := { okEnv with resendOk := false }

/-- Environment whose step-14 re-fetch errors out. -/
def noRefetchEnv : RenderEnv := { okEnv with refetchOk := false }

/-! Helper lemmas about the filesystem model. -/

theorem fsRead_fsWrite_self (fs : Fs) (p : FPath) (v : Nat) :
    fsRead (fsWrite fs p v) p = some v := by
  simp [fsRead, fsWrite, List.find?]

theorem find?_filter_keep_ne (fs : Fs) (p q : FPath) (h : q ≠ p) :
    ((fs.filter fun e => e.1 != p).find? fun e => e.1 == q) =
      fs.find? fun e => e.1 == q := by
  induction fs with
  | nil => rfl
  | cons a t ih =>
    by_cases ha : a.1 = p
    · have haq : (a.1 == q) = false :=
        beq_eq_false_iff_ne.mpr (by rw [ha]; exact fun hc => h hc.symm)
      have hk : (a.1 != p) = false := by simp [ha]
      simp [List.filter_cons, hk, haq, List.find?_cons, ih]
    · have hk : (a.1 != p) = true := by simp [ha]
      cases hq : (a.1 == q) <;>
        simp [List.filter_cons, hk, List.find?_cons, hq, ih]

theorem fsRead_fsWrite_ne (fs : Fs) (p q : FPath) (v : Nat) (h : q ≠ p) :
    fsRead (fsWrite fs p v) q = fsRead fs q := by
  have hpq : (p == q) = false :=
    beq_eq_false_iff_ne.mpr (fun hc => h hc.symm)
  simp only [fsRead, fsWrite, List.find?_cons, hpq,
    find?_filter_keep_ne fs p q h]

theorem any_filter_keep_ne (fs : Fs) (p q : FPath) (h : q ≠ p) :
    ((fs.filter fun e => e.1 != p).any fun e => e.1 == q) =
      fs.any fun e => e.1 == q := by
  induction fs with
  | nil => rfl
  | cons a t ih =>
    by_cases ha : a.1 = p
    · have haq : (a.1 == q) = false :=
        beq_eq_false_iff_ne.mpr (by rw [ha]; exact fun hc => h hc.symm)
      have hk : (a.1 != p) = false := by simp [ha]
      simp [List.filter_cons, hk, haq, List.any_cons, ih]
    · have hk : (a.1 != p) = true := by simp [ha]
      simp [List.filter_cons, hk, List.any_cons, ih]

theorem fsExists_fsWrite_ne (fs : Fs) (p q : FPath) (v : Nat) (h : q ≠ p) :
    fsExists (fsWrite fs p v) q = fsExists fs q := by
  have hpq : (p == q) = false :=
    beq_eq_false_iff_ne.mpr (fun hc => h hc.symm)
  simp only [fsExists, fsWrite, List.any_cons, hpq, Bool.false_or,
    any_filter_keep_ne fs p q h]

/-! Helper lemmas about the store model. -/

theorem find?_calls_updateById (db : Db) (j i : Nat) (f : CallRow → CallRow)
    (hf : ∀ r, (f r).id = r.id) :
    ((updateById db j f).calls.find? fun r => r.id == i) =
      (db.calls.find? fun r => r.id == i).map
        (fun r => if r.id == j then f r else r) := by
  have hfun : ((fun r : CallRow => r.id == i) ∘
      fun r => if r.id == j then f r else r) =
      fun r : CallRow => r.id == i := by
    funext r
    simp only [Function.comp]
    cases hj : (r.id == j) <;> simp [hj, hf]
  calc ((updateById db j f).calls.find? fun r => r.id == i)
      = ((db.calls.map fun r => if r.id == j then f r else r).find?
          fun r => r.id == i) := rfl
    _ = (db.calls.find? ((fun r : CallRow => r.id == i) ∘
          fun r => if r.id == j then f r else r)).map
          (fun r => if r.id == j then f r else r) := List.find?_map _ _
    _ = (db.calls.find? fun r => r.id == i).map
          (fun r => if r.id == j then f r else r) := by rw [hfun]

theorem notifiedFlag_updateById (db : Db) (j i : Nat) (f : CallRow → CallRow)
    (hf : ∀ r, (f r).id = r.id)
    (hts : ∀ r, (f r).transcript_sent_at = r.transcript_sent_at) :
    notifiedFlag (updateById db j f) i = notifiedFlag db i := by
  unfold notifiedFlag
  rw [find?_calls_updateById db j i f hf]
  cases db.calls.find? fun r => r.id == i with
  | none => rfl
  | some r =>
    by_cases hj : r.id == j <;> simp [Option.map, hj, hts]

theorem notifiedFlag_appendEvent (db : Db) (e : EventRow) (i : Nat) :
    notifiedFlag (appendEvent db e) i = notifiedFlag db i := rfl

theorem notifiedFlag_setProcessing (db : Db) (j i : Nat) :
    notifiedFlag (setProcessing db j) i = notifiedFlag db i :=
  notifiedFlag_updateById db j i _ (fun _ => rfl) (fun _ => rfl)

theorem notifiedFlag_markCompletedRow (db : Db) (j i : Nat) (u n : String) :
    notifiedFlag (markCompletedRow db j u n) i = notifiedFlag db i :=
  notifiedFlag_updateById db j i _ (fun _ => rfl) (fun _ => rfl)

theorem notifiedFlag_dbBeforeNotify (env : RenderEnv) (job : CallRow)
    (db : Db) (i : Nat) :
    notifiedFlag (dbBeforeNotify env job db) i = notifiedFlag db i := by
  unfold dbBeforeNotify
  rw [notifiedFlag_appendEvent, notifiedFlag_markCompletedRow,
    notifiedFlag_setProcessing]

theorem find?_calls_dbBeforeNotify (env : RenderEnv) (job : CallRow)
    (db : Db) (i : Nat)
    (h : (db.calls.find? fun r => r.id == i) = none) :
    ((dbBeforeNotify env job db).calls.find? fun r => r.id == i) = none := by
  have h1 : (((setProcessing db job.id).calls.find? fun r => r.id == i)) = none := by
    unfold setProcessing
    rw [find?_calls_updateById db job.id i procUpdate (fun _ => rfl), h]
    rfl
  have h2 : (((markCompletedRow (setProcessing db job.id) job.id
      env.publicUrl env.nowIso).calls.find? fun r => r.id == i)) = none := by
    unfold markCompletedRow
    rw [find?_calls_updateById _ job.id i
      (completeUpdate env.publicUrl env.nowIso) (fun _ => rfl), h1]
    rfl
  exact h2

theorem notifiedFlag_setNotifiedAt (db : Db) (j : Nat) (now : String)
    (hn : now ≠ "") :
    notifiedFlag (setNotifiedAt db j now) j = true := by
  unfold notifiedFlag setNotifiedAt
  rw [find?_calls_updateById db j j (notifiedUpdate now) (fun _ => rfl)]
  cases hfd : db.calls.find? fun r => r.id == j with
  | none => rfl
  | some r =>
    have hpred := List.find?_some hfd
    simp [Option.map, hpred, isFalsy, notifiedUpdate, hn]

/-! Helper lemmas about the notification step. -/

theorem notifyStep_email_imp_flag_false (ro rs : Bool) (now : String)
    (j : Nat) (db : Db) :
    (notifyStep ro rs now j db).2 = true → notifiedFlag db j = false := by
  unfold notifyStep
  cases ro with
  | false => intro h; exact absurd h (by simp)
  | true =>
    cases hfd : db.calls.find? fun r => r.id == j with
    | none => intro h; exact absurd h (by simp)
    | some fc =>
      cases hfa : isFalsy fc.transcript_sent_at with
      | false => intro h; exact absurd h (by simp [hfa])
      | true =>
        intro _
        unfold notifiedFlag
        rw [hfd]
        simp [Option.map, hfa]

theorem notifyStep_email_imp_flag_after (ro rs : Bool) (now : String)
    (j : Nat) (db : Db) (hn : now ≠ "") :
    (notifyStep ro rs now j db).2 = true →
      notifiedFlag (notifyStep ro rs now j db).1 j = true := by
  unfold notifyStep
  cases ro with
  | false => intro h; exact absurd h (by simp)
  | true =>
    cases hfd : db.calls.find? fun r => r.id == j with
    | none => intro h; exact absurd h (by simp)
    | some fc =>
      cases hfa : isFalsy fc.transcript_sent_at with
      | false => intro h; exact absurd h (by simp [hfa])
      | true =>
        intro _
        simp only [hfa, if_true]
        rw [notifiedFlag_appendEvent]
        exact notifiedFlag_setNotifiedAt db j now hn

theorem notifyStep_no_email_db (ro rs : Bool) (now : String) (j : Nat)
    (db : Db) :
    (notifyStep ro rs now j db).2 = false → (notifyStep ro rs now j db).1 = db := by
  unfold notifyStep
  cases ro with
  | false => intro _; rfl
  | true =>
    cases hfd : db.calls.find? fun r => r.id == j with
    | none => intro _; rfl
    | some fc =>
      cases hfa : isFalsy fc.transcript_sent_at with
      | false => intro _; simp [hfa]
      | true => intro h; exact absurd h (by simp [hfa])

theorem notifyStep_flag_true_no_email (ro rs : Bool) (now : String) (j : Nat)
    (db : Db) (h : notifiedFlag db j = true) :
    (notifyStep ro rs now j db).2 = false := by
  unfold notifyStep
  cases ro with
  | false => simp
  | true =>
    cases hfd : db.calls.find? fun r => r.id == j with
    | none => simp
    | some fc =>
      unfold notifiedFlag at h
      rw [hfd] at h
      simp only [Option.map, Option.getD] at h
      have hfa : isFalsy fc.transcript_sent_at = false := by
        cases hv : isFalsy fc.transcript_sent_at
        · rfl
        · rw [hv] at h; exact absurd h (by simp)
      simp [hfa]

theorem notifyStep_refetch_none (rs : Bool) (now : String) (j : Nat)
    (db : Db) (h : (db.calls.find? fun r => r.id == j) = none) :
    (notifyStep true rs now j db).2 = false := by
  unfold notifyStep
  simp [h]

/-! Shape of a renderVideo run: either every external step resolved and
the run returns the success result with the notification step applied to
the post-completion store, or the first throwing step's message is the
uniform failure result and nothing beyond the step-1 status write
happened. -/

theorem renderVideo_shape (env : RenderEnv) (job : CallRow) (db : Db) :
    (firstError env = none →
      (renderVideo env job db).result =
        ⟨true, some env.publicUrl, none⟩ ∧
      (renderVideo env job db).db =
        (notifyStep env.refetchOk env.resendOk env.nowIso job.id
          (dbBeforeNotify env job db)).1 ∧
      (renderVideo env job db).effects.emailInvoked =
        (notifyStep env.refetchOk env.resendOk env.nowIso job.id
          (dbBeforeNotify env job db)).2) ∧
    (∀ e, firstError env = some e →
      (renderVideo env job db).result = ⟨false, none, some e⟩ ∧
      (renderVideo env job db).db = setProcessing db job.id ∧
      (renderVideo env job db).effects = ⟨none, false⟩) := by
  rcases env with ⟨su, dl, bu, co, re, ff, cc, ue, pu, ro, rs, now, rand, sn, fs0⟩
  cases su <;> cases dl <;> cases bu <;> cases co <;> cases re <;> cases ue <;>
    simp [renderVideo, firstError, failOut, dbBeforeNotify]

theorem renderVideo_email_imp_flag_false (env : RenderEnv) (job : CallRow)
    (db : Db) (h : (renderVideo env job db).effects.emailInvoked = true) :
    notifiedFlag db job.id = false := by
  cases hfe : firstError env with
  | none =>
    have hs := (renderVideo_shape env job db).1 hfe
    rw [hs.2.2] at h
    have hflag := notifyStep_email_imp_flag_false _ _ _ _ _ h
    rwa [notifiedFlag_dbBeforeNotify] at hflag
  | some e =>
    have hf := (renderVideo_shape env job db).2 e hfe
    rw [hf.2.2] at h
    exact absurd h (by simp)

theorem renderVideo_email_imp_flag_after (env : RenderEnv) (job : CallRow)
    (db : Db) (hn : env.nowIso ≠ "")
    (h : (renderVideo env job db).effects.emailInvoked = true) :
    notifiedFlag (renderVideo env job db).db job.id = true := by
  cases hfe : firstError env with
  | none =>
    have hs := (renderVideo_shape env job db).1 hfe
    rw [hs.2.2] at h
    rw [hs.2.1]
    exact notifyStep_email_imp_flag_after _ _ _ _ _ hn h
  | some e =>
    have hf := (renderVideo_shape env job db).2 e hfe
    rw [hf.2.2] at h
    exact absurd h (by simp)

theorem renderVideo_no_email_flag_preserved (env : RenderEnv) (job : CallRow)
    (db : Db) (h : (renderVideo env job db).effects.emailInvoked = false) :
    notifiedFlag (renderVideo env job db).db job.id = notifiedFlag db job.id := by
  cases hfe : firstError env with
  | none =>
    have hs := (renderVideo_shape env job db).1 hfe
    rw [hs.2.2] at h
    rw [hs.2.1, notifyStep_no_email_db _ _ _ _ _ h, notifiedFlag_dbBeforeNotify]
  | some e =>
    have hf := (renderVideo_shape env job db).2 e hfe
    rw [hf.2.1, notifiedFlag_setProcessing]

theorem runSeq_zero_of_flag (job : CallRow) (envs : List RenderEnv) (db : Db)
    (h : notifiedFlag db job.id = true) :
    (runSeq job db envs).2 = 0 := by
  induction envs generalizing db with
  | nil => rfl
  | cons env rest ih =>
    have hne : (renderVideo env job db).effects.emailInvoked = false := by
      cases hc : (renderVideo env job db).effects.emailInvoked
      · rfl
      · rw [renderVideo_email_imp_flag_false env job db hc] at h
        exact absurd h (by simp)
    have hpres := renderVideo_no_email_flag_preserved env job db hne
    simp only [runSeq, hne]
    rw [ih _ (hpres.trans h)]
    simp

theorem runSeq_le_one (job : CallRow) (envs : List RenderEnv) (db : Db)
    (hts : ∀ e ∈ envs, e.nowIso ≠ "") :
    (runSeq job db envs).2 ≤ 1 := by
  induction envs generalizing db with
  | nil => simp [runSeq]
  | cons env rest ih =>
    cases hei : (renderVideo env job db).effects.emailInvoked
    · simp only [runSeq, hei]
      simpa using ih _ (fun e he => hts e (List.mem_cons_of_mem _ he))
    · have hflag := renderVideo_email_imp_flag_after env job db
        (hts env (List.mem_cons_self env rest)) hei
      have hzero := runSeq_zero_of_flag job rest _ hflag
      simp only [runSeq, hei, if_true, hzero]
      omega

/-! Claim theorems. -/

/-- Claim C1 (code-bug evaluation): at the race scenario — the job is
pending at the select query but already processing at the conditional
update, so the update matches zero rows — claimNextJob nevertheless
returns the selected job, because a zero-row conditional update reports
no client error and the source checks only the error, never the
affected-row count.  This contradicts the claim that claimNextJob
returns a claimed job only when the conditional update actually
affected the row. -/
theorem claimNextJob_returns_job_after_lost_race :
    claimNextJob dbSel dbUpd false false = (dbUpd, some rowP) ∧
    claimAffected dbUpd rowP.id = 0 := by
  constructor
  · rfl
  · rfl

/-- Claim C2 (counterexample): handleFailure invoked with
currentRetryCount = 3 persists retry count 4 together with status
failed, so "on permanent failure retry_count equals 3" is false as a
statement about every invocation. -/
theorem handleFailure_retry_count_above_cap :
    ((handleFailure dbR3 1 "boom" 3).calls.map
      fun r => (r.video_status, r.video_retry_count)) = [(some "failed", 4)] := by
  rfl

/-- Claim C2 (amended): for every invocation of handleFailure with
current retry count r on a stored row with the job's id, the persisted
retry count becomes r + 1; the persisted status is failed iff
r + 1 ≥ maxRetries (3), and equals pending otherwise; a permanent
failure appends a `video_render_failed_permanently` event and a retry
appends a `video_render_retry_scheduled` event with the advisory
backoff.  The persisted count is r + 1 — equal to 3 exactly when r = 2,
the largest value the worker's own retry chain produces. -/
theorem handleFailure_increments_and_branches (db : Db) (jobId : Nat)
    (e : String) (r i : Nat) (row : CallRow)
    (hrow : db.calls[i]? = some row) (hid : row.id = jobId) :
    ((handleFailure db jobId e r).calls[i]?.map
      fun a => a.video_retry_count) = some (r + 1) ∧
    (((handleFailure db jobId e r).calls[i]?.map
      fun a => a.video_status) = some (some "failed") ↔ maxRetries ≤ r + 1) ∧
    (¬ maxRetries ≤ r + 1 →
      ((handleFailure db jobId e r).calls[i]?.map
        fun a => a.video_status) = some (some "pending")) ∧
    (maxRetries ≤ r + 1 →
      (handleFailure db jobId e r).events = db.events ++
        [⟨jobId, "video_render_failed_permanently",
          EventData.failedPermanently e (r + 1)⟩]) ∧
    (¬ maxRetries ≤ r + 1 →
      (handleFailure db jobId e r).events = db.events ++
        [⟨jobId, "video_render_retry_scheduled",
          EventData.retryScheduled e (r + 1)
            ((backoffDelays.get? r).getD 600000)⟩]) := by
  by_cases h3 : maxRetries ≤ r + 1 <;>
    simp [handleFailure, updateById, appendEvent, h3, List.getElem?_map,
      hrow, hid, permFailUpdate, retryUpdate]

/-- Claim C2 witness: invoked with retry count 2 (the worker's maximal
retry-chain value) the persisted count is 3 and the status failed. -/
theorem handleFailure_increments_and_branches_witness :
    ((handleFailure dbSel 1 "err" 2).calls[0]?.map
      fun a => a.video_retry_count) = some 3 ∧
    ((handleFailure dbSel 1 "err" 2).calls[0]?.map
      fun a => a.video_status) = some (some "failed") := by
  have h := handleFailure_increments_and_branches dbSel 1 "err" 2 0 rowP rfl rfl
  exact ⟨h.1, h.2.1.mpr (by decide)⟩

/-- Claim C5: the pipeline's duration estimate is
`max 5 (Math.round (payloadBytes / 20000))`; it is at least 5 for every
payload size, and a 100000-byte payload yields exactly 5. -/
theorem durationSeconds_formula_and_floor (n : Nat) :
    durationSeconds n = max 5 (mathRoundDiv n 20000) ∧
    5 ≤ durationSeconds n ∧
    durationSeconds 100000 = 5 :=
  ⟨rfl, le_max_left _ _, by decide⟩

/-- Claim C8: the amplitude sequence generated for a duration of d
seconds has length d * 100; its i-th element is
`clamp 0.1 1 (0.3 + rand i * 0.4 + sin (i * 0.1) * 0.2)` (with the
random draw and the sine value supplied by oracles), and every element
lies in [0.1, 1]. -/
theorem generateWaveform_spec (rand sine : Nat → ℚ) (d i : Nat)
    (hi : i < d * 100) :
    (generateWaveform rand sine (d * 100)).length = d * 100 ∧
    (generateWaveform rand sine (d * 100))[i]? =
      some (clampAmp (3/10 + rand i * (4/10) + sine i * (2/10))) ∧
    (∀ x ∈ generateWaveform rand sine (d * 100), 1/10 ≤ x ∧ x ≤ 1) := by
  refine ⟨by simp [generateWaveform], ?_, ?_⟩
  · simp [generateWaveform, List.getElem?_map, List.getElem?_range, hi]
  · intro x hx
    simp only [generateWaveform, List.mem_map, List.mem_range] at hx
    obtain ⟨j, _, rfl⟩ := hx
    unfold clampAmp
    refine ⟨le_max_left _ _, max_le (by norm_num) (min_le_left _ _)⟩

/-- Claim C8 witness: for a one-second duration the sequence has 100
elements and element 3 carries the clamped formula value. -/
theorem generateWaveform_spec_witness :
    (generateWaveform (fun _ => 1/2) (fun _ => 0) (1 * 100)).length =
      1 * 100 ∧
    (generateWaveform (fun _ => 1/2) (fun _ => 0) (1 * 100))[3]? =
      some (clampAmp (3/10 + (1/2) * (4/10) + 0 * (2/10))) := by
  have h := generateWaveform_spec (fun _ => 1/2) (fun _ => 0) 1 3 (by decide)
  exact ⟨h.1, h.2.1⟩

/-- Claim C9: handleFailure updates rows keyed only on the job id with
no expected-prior-status condition — a row with a different id is
untouched, and a row with the job's id is rewritten whatever its
current status — and the rewrite changes exactly `video_status` and
`video_retry_count`, leaving every other column of the row as it
was. -/
theorem handleFailure_frame (db : Db) (jobId : Nat) (e : String)
    (r i : Nat) (row : CallRow) (hrow : db.calls[i]? = some row) :
    (row.id ≠ jobId → (handleFailure db jobId e r).calls[i]? = some row) ∧
    (row.id = jobId →
      (handleFailure db jobId e r).calls[i]? =
        some (if maxRetries ≤ r + 1 then permFailUpdate (r + 1) row
          else retryUpdate (r + 1) row)) ∧
    agreesExceptStatusRetry (permFailUpdate (r + 1) row) row ∧
    agreesExceptStatusRetry (retryUpdate (r + 1) row) row ∧
    (permFailUpdate (r + 1) row).video_status = some "failed" ∧
    (retryUpdate (r + 1) row).video_status = some "pending" ∧
    (permFailUpdate (r + 1) row).video_retry_count = r + 1 ∧
    (retryUpdate (r + 1) row).video_retry_count = r + 1 := by
  refine ⟨?_, ?_, ?_, ?_, rfl, rfl, rfl, rfl⟩
  · intro hne
    by_cases h3 : maxRetries ≤ r + 1 <;>
      simp [handleFailure, updateById, appendEvent, h3, List.getElem?_map,
        hrow, hne]
  · intro hid
    by_cases h3 : maxRetries ≤ r + 1 <;>
      simp [handleFailure, updateById, appendEvent, h3, List.getElem?_map,
        hrow, hid]
  · exact ⟨rfl, rfl, rfl, rfl, rfl, rfl, rfl, rfl, rfl, rfl, rfl⟩
  · exact ⟨rfl, rfl, rfl, rfl, rfl, rfl, rfl, rfl, rfl, rfl, rfl⟩

/-- Claim C9 witness: a row already in `processing` — with no status
guard on the update — is overwritten to `pending` with retry count 1,
all other columns intact. -/
theorem handleFailure_frame_witness :
    (handleFailure dbUpd 1 "err" 0).calls[0]? =
      some (retryUpdate 1 { rowP with video_status := some "processing" }) := by
  have h := handleFailure_frame dbUpd 1 "err" 0 0
    { rowP with video_status := some "processing" } rfl
  have h2 := h.2.1 rfl
  simpa [maxRetries] using h2

/-- Claim C6: renderVideo never propagates an exception to the worker
loop — when every step resolves it returns the uniform success result,
and when any step throws, the first throwing step's message becomes the
uniform failure result (success = false, the error message), the
remaining steps are aborted (no upload, no notification), and the store
holds only the step-1 processing write. -/
theorem renderVideo_never_throws (env : RenderEnv) (job : CallRow) (db : Db) :
    (firstError env = none →
      (renderVideo env job db).result = ⟨true, some env.publicUrl, none⟩) ∧
    (∀ e, firstError env = some e →
      (renderVideo env job db).result = ⟨false, none, some e⟩ ∧
      (renderVideo env job db).db = setProcessing db job.id ∧
      (renderVideo env job db).effects = ⟨none, false⟩) :=
  ⟨fun h => ((renderVideo_shape env job db).1 h).1,
   (renderVideo_shape env job db).2⟩

/-- Claim C6 witness: with the render step throwing "boom", the run
returns the uniform failure result with no upload and no email. -/
theorem renderVideo_never_throws_witness :
    (renderVideo renderFailEnv rowP dbSel).result = ⟨false, none, some "boom"⟩ ∧
    (renderVideo renderFailEnv rowP dbSel).effects = ⟨none, false⟩ := by
  have h := (renderVideo_never_throws renderFailEnv rowP dbSel).2 "boom" (by rfl)
  exact ⟨h.1, h.2.2⟩

/-- Claim C7: when every pipeline step up to completion resolves, a
failing completion-email send never fails the job — sendPostCallEmail
returns normally with the error swallowed (it is a total function whose
send outcome is simply false), and renderVideo still returns
success = true with the video URL. -/
theorem email_failure_never_fails_job (env : RenderEnv) (job : CallRow)
    (db : Db) (hok : firstError env = none) (hre : env.resendOk = false) :
    (renderVideo env job db).result.success = true ∧
    (renderVideo env job db).result.videoUrl = some env.publicUrl ∧
    (renderVideo env job db).result.error = none ∧
    (∀ call : CallRow, sendPostCallEmail call env.resendOk = false) := by
  have h := ((renderVideo_shape env job db).1 hok).1
  refine ⟨by rw [h], by rw [h], by rw [h], ?_⟩
  intro call
  rw [hre]
  unfold sendPostCallEmail
  split <;> rfl

/-- Claim C7 witness: with the Resend send failing and everything else
resolving, the run still reports success with the public URL. -/
theorem email_failure_never_fails_job_witness :
    (renderVideo noResendEnv rowP dbSel).result.success = true ∧
    (renderVideo noResendEnv rowP dbSel).result.videoUrl =
      some "https://cdn/video.mp4" := by
  have h := email_failure_never_fails_job noResendEnv rowP dbSel rfl rfl
  exact ⟨h.1, h.2.1⟩

/-- Claim C10: when every pipeline step resolves but the step-14
re-fetch of the job record fails or returns no row, renderVideo skips
the notification entirely and still returns success = true with the
uploaded video URL. -/
theorem refetch_failure_still_succeeds (env : RenderEnv) (job : CallRow)
    (db : Db) (hok : firstError env = none)
    (hmiss : env.refetchOk = false ∨
      (db.calls.find? fun r => r.id == job.id) = none) :
    (renderVideo env job db).result = ⟨true, some env.publicUrl, none⟩ ∧
    (renderVideo env job db).effects.emailInvoked = false := by
  have hs := (renderVideo_shape env job db).1 hok
  refine ⟨hs.1, ?_⟩
  rw [hs.2.2]
  cases hmiss with
  | inl hro => rw [hro]; rfl
  | inr hfd =>
    have hnone := find?_calls_dbBeforeNotify env job db job.id hfd
    cases hro : env.refetchOk with
    | false => rfl
    | true => exact notifyStep_refetch_none _ _ _ _ hnone

/-- Claim C10 witness: with a failing re-fetch the run succeeds with
the public URL and the Notifier is not invoked. -/
theorem refetch_failure_still_succeeds_witness :
    (renderVideo noRefetchEnv rowP dbSel).result =
      ⟨true, some "https://cdn/video.mp4", none⟩ ∧
    (renderVideo noRefetchEnv rowP dbSel).effects.emailInvoked = false :=
  refetch_failure_still_succeeds noRefetchEnv rowP dbSel rfl (Or.inl rfl)

/-- Claim C4: if the outro asset is absent or the transcode command
fails, the Outro Compositor writes the main video's bytes unchanged to
the output path and returns normally, and under the same conditions a
fully-resolving pipeline run uploads exactly the main render's bytes
and reports success. -/
theorem outro_fallback_preserves_main_video (fs : Fs) (ffm : Bool)
    (c j m : Nat) (env : RenderEnv) (job : CallRow) (db : Db)
    (hread : fsRead fs (FPath.mainVideo j) = some m)
    (hfall : fsExists fs FPath.outro = false ∨ ffm = false)
    (hok : firstError env = none)
    (hren : env.renderRes = Except.ok m)
    (hfall2 : fsExists env.fs0 FPath.outro = false ∨ env.ffmpegOk = false) :
    fsRead (concatenateWithOutro fs ffm c (FPath.mainVideo j)
      (FPath.finalVideo j)) (FPath.finalVideo j) = some m ∧
    (renderVideo env job db).effects.uploadedBytes = some m ∧
    (renderVideo env job db).result.success = true := by
  constructor
  · cases hfall with
    | inl ho =>
      simp [concatenateWithOutro, ho, copyFileSync, hread, fsRead_fsWrite_self]
    | inr hf =>
      by_cases he : fsExists fs FPath.outro = true <;>
        simp [concatenateWithOutro, he, hf, copyFileSync, hread,
          fsRead_fsWrite_self]
  · cases hsu : env.signedUrl with
    | error e => simp [firstError, hsu] at hok
    | ok u =>
      cases hdl : env.download with
      | error e => simp [firstError, hsu, hdl] at hok
      | ok payload =>
        cases hbu : env.bundleRes with
        | error e => simp [firstError, hsu, hdl, hbu] at hok
        | ok bu =>
          cases hco : env.composeRes with
          | error e => simp [firstError, hsu, hdl, hbu, hco] at hok
          | ok co =>
            cases hue : env.uploadError with
            | some msg => simp [firstError, hsu, hdl, hbu, hco, hren, hue] at hok
            | none =>
              have hex2 : fsExists (fsWrite (fsWrite env.fs0
                  (FPath.tempAudio job.id) payload)
                  (FPath.mainVideo job.id) m) FPath.outro =
                  fsExists env.fs0 FPath.outro := by
                rw [fsExists_fsWrite_ne _ _ _ _ (by simp),
                  fsExists_fsWrite_ne _ _ _ _ (by simp)]
              have hrd : fsRead (fsWrite (fsWrite env.fs0
                  (FPath.tempAudio job.id) payload)
                  (FPath.mainVideo job.id) m) (FPath.mainVideo job.id) =
                  some m := fsRead_fsWrite_self _ _ _
              have hconcat : fsRead (concatenateWithOutro
                  (fsWrite (fsWrite env.fs0 (FPath.tempAudio job.id) payload)
                    (FPath.mainVideo job.id) m)
                  env.ffmpegOk env.concatContent (FPath.mainVideo job.id)
                  (FPath.finalVideo job.id)) (FPath.finalVideo job.id) =
                  some m := by
                cases hfall2 with
                | inl ho =>
                  simp [concatenateWithOutro, hex2, ho, copyFileSync, hrd,
                    fsRead_fsWrite_self]
                | inr hf =>
                  by_cases he : fsExists (fsWrite (fsWrite env.fs0
                      (FPath.tempAudio job.id) payload)
                      (FPath.mainVideo job.id) m) FPath.outro = true <;>
                    simp [concatenateWithOutro, he, hf, copyFileSync, hrd,
                      fsRead_fsWrite_self]
              simp [renderVideo, hsu, hdl, hbu, hco, hren, hue, hconcat]

/-- Claim C4 witness: with no outro asset on disk, the compositor's
output equals the main video's content and the pipeline run uploads the
main render's bytes and succeeds. -/
theorem outro_fallback_preserves_main_video_witness :
    fsRead (concatenateWithOutro [(FPath.mainVideo 1, 7)] false 9
      (FPath.mainVideo 1) (FPath.finalVideo 1)) (FPath.finalVideo 1) =
      some 7 ∧
    (renderVideo okEnv rowP dbSel).effects.uploadedBytes = some 7 ∧
    (renderVideo okEnv rowP dbSel).result.success = true :=
  outro_fallback_preserves_main_video [(FPath.mainVideo 1, 7)] false 9 1 7
    okEnv rowP dbSel rfl (Or.inr rfl) rfl rfl (Or.inl rfl)

/-- Claim C3: across any number of sequential pipeline runs for the
same job (each writing real ISO timestamps, which are nonempty), the
Notifier is invoked at most once; if the job's notified flag is already
set before the runs, it is never invoked; and a single run invokes it
only when the job's current record has the flag unset. -/
theorem notifier_invoked_at_most_once (job : CallRow) (db : Db)
    (envs : List RenderEnv) (env1 : RenderEnv)
    (hts : ∀ e ∈ envs, e.nowIso ≠ "") :
    (runSeq job db envs).2 ≤ 1 ∧
    (notifiedFlag db job.id = true → (runSeq job db envs).2 = 0) ∧
    ((renderVideo env1 job db).effects.emailInvoked = true →
      notifiedFlag db job.id = false) :=
  ⟨runSeq_le_one job envs db hts,
   fun h => runSeq_zero_of_flag job envs db h,
   fun h => renderVideo_email_imp_flag_false env1 job db h⟩

/-- Claim C3 witness: two consecutive fully-resolving runs for the same
pending job invoke the Notifier at most once. -/
theorem notifier_invoked_at_most_once_witness :
    (runSeq rowP dbSel [okEnv, okEnv]).2 ≤ 1 :=
  (notifier_invoked_at_most_once rowP dbSel [okEnv, okEnv] okEnv
    (by decide)).1

end CallSanta
